import Mathlib

/-!
Verification of the workplace-compliance-monitor service.

Shallow embedding of the deterministic core of the repository: the risk
scale and detection-result data model (src/app/models.py), the risk-fusion
and action-policy functions together with the fail-open detector adapters
(src/app/services.py), the request handler and health endpoint
(src/app/main.py), and the duplicated worker-pool entry point (src/main.py).
The external LLM call is modelled by its outcome: an `Except` value that is
either a parsed detection result or an exception message.
-/

namespace ComplianceMonitor

/-- Employee role categories for risk assessment (src/app/models.py, class SenderRole). -/
inductive SenderRole where
  | CUSTOMER_SERVICE
  | SALES
  | ENGINEERING
  | MANAGEMENT
  | HR
  | FINANCE
  | OPERATIONS
deriving DecidableEq, BEq, Repr, Fintype

/-- The string value of each SenderRole member, as in the Python str-enum. -/
def SenderRole.value : SenderRole → String
  | .CUSTOMER_SERVICE => "Customer Service"
  | .SALES => "Sales"
  | .ENGINEERING => "Engineering"
  | .MANAGEMENT => "Management"
  | .HR => "HR"
  | .FINANCE => "Finance"
  | .OPERATIONS => "Operations"

/-- Risk severity levels (src/app/models.py, class RiskLevel). -/
inductive RiskLevel where
  | SAFE
  | LOW
  | MEDIUM
  | HIGH
  | CRITICAL
deriving DecidableEq, BEq, Repr, Fintype

/-- The string value of each RiskLevel member, as in the Python str-enum. -/
def RiskLevel.value : RiskLevel → String
  | .SAFE => "safe"
  | .LOW => "low"
  | .MEDIUM => "medium"
  | .HIGH => "high"
  | .CRITICAL => "critical"

/-- Position of a RiskLevel in the declared order SAFE < LOW < MEDIUM < HIGH < CRITICAL,
used to state monotonicity of the fused level in the severity score. -/
def RiskLevel.severityRank : RiskLevel → Nat
  | .SAFE => 0
  | .LOW => 1
  | .MEDIUM => 2
  | .HIGH => 3
  | .CRITICAL => 4

/-- Results from PII detection analysis (src/app/models.py, PIIDetectionResult). -/
structure PIIDetectionResult where
  has_pii : Bool
  pii_types : List String
  risk_level : RiskLevel
  explanation : String
deriving DecidableEq, Repr

/-- Results from toxicity detection analysis (src/app/models.py, ToxicityDetectionResult). -/
structure ToxicityDetectionResult where
  is_toxic : Bool
  toxicity_types : List String
  risk_level : RiskLevel
  explanation : String
deriving DecidableEq, Repr

/-- Response payload with compliance analysis results (src/app/models.py, MonitorResponse). -/
structure MonitorResponse where
  pii_detection : PIIDetectionResult
  toxicity_detection : ToxicityDetectionResult
  final_risk_level : RiskLevel
  severity_score : Nat
  recommended_action : String
  should_flag : Bool
  processing_time_ms : Nat
deriving DecidableEq, Repr

/-- Health endpoint payload of src/app/main.py: status, model and credential flag. -/
structure HealthResponse where
  status : String
  model : String
  api_key_configured : Bool
deriving DecidableEq, Repr

/-- The model identifier constant MODEL_NAME of src/app/services.py and src/main.py. -/
def MODEL_NAME : String := "gpt-4o-mini"

namespace App

/-- The risk_scores dictionary of calculate_final_risk (src/app/services.py lines 173-179). -/
def risk_scores : RiskLevel → Nat
  | .SAFE => 0
  | .LOW => 25
  | .MEDIUM => 50
  | .HIGH => 75
  | .CRITICAL => 100

/-- calculate_final_risk of src/app/services.py (lines 157-197): look up both weights,
take their maximum as final_score, and map final_score back to a level by the
threshold chain of lines 186-195. -/
def calculate_final_risk (pii_result : PIIDetectionResult)
    (toxicity_result : ToxicityDetectionResult) : RiskLevel × Nat :=
  let pii_score := risk_scores pii_result.risk_level
  let toxicity_score := risk_scores toxicity_result.risk_level
  let final_score := max pii_score toxicity_score
  let final_risk :=
    if final_score ≥ 75 then RiskLevel.CRITICAL
    else if final_score ≥ 50 then RiskLevel.HIGH
    else if final_score ≥ 25 then RiskLevel.MEDIUM
    else if final_score > 0 then RiskLevel.LOW
    else RiskLevel.SAFE
  (final_risk, final_score)

/-- get_recommended_action of src/app/services.py (lines 200-241): template strings
keyed by risk level; CRITICAL, HIGH and MEDIUM interpolate the sender role value,
LOW and SAFE are fixed strings. -/
def get_recommended_action (risk_level : RiskLevel) (sender_role : SenderRole) : String :=
  if risk_level = RiskLevel.CRITICAL then
    "IMMEDIATE ACTION REQUIRED: Delete message immediately, notify compliance team, suspend "
      ++ sender_role.value
      ++ " account pending investigation, initiate incident response protocol"
  else if risk_level = RiskLevel.HIGH then
    "URGENT: Flag for immediate compliance review, notify "
      ++ sender_role.value
      ++ " manager, require mandatory training, monitor future communications closely"
  else if risk_level = RiskLevel.MEDIUM then
    "WARNING: Log incident for audit trail, send automated warning to "
      ++ sender_role.value
      ++ ", escalate if pattern continues"
  else if risk_level = RiskLevel.LOW then
    "ADVISORY: Log for compliance records, no immediate action required, monitor for patterns"
  else
    "SAFE: No action required, message complies with policies"

/-- detect_pii of src/app/services.py (lines 11-82), modelled on the outcome of the
external classification call: the try-branch returns the parsed result, the
except-branch (lines 76-82) returns the fail-open default with the error message. -/
def detect_pii (call_result : Except String PIIDetectionResult) : PIIDetectionResult :=
  match call_result with
  | Except.ok parsed => parsed
  | Except.error e =>
    { has_pii := false
      pii_types := []
      risk_level := RiskLevel.SAFE
      explanation := "Error during PII detection: " ++ e }

/-- detect_toxicity of src/app/services.py (lines 85-154), modelled on the outcome of
the external classification call; the except-branch is lines 148-154 (note the
missing colon in its explanation string, kept as in the source). -/
def detect_toxicity (call_result : Except String ToxicityDetectionResult) : ToxicityDetectionResult :=
  match call_result with
  | Except.ok parsed => parsed
  | Except.error e =>
    { is_toxic := false
      toxicity_types := []
      risk_level := RiskLevel.SAFE
      explanation := "Error during toxicity detection " ++ e }

/-- monitor_communication of src/app/main.py (lines 37-92), after both detector
results are gathered: fuse, recommend, flag, and assemble the response. The wall
clock measurement is abstracted as the processing_time_ms argument. -/
def monitor_communication (pii_result : PIIDetectionResult)
    (toxicity_result : ToxicityDetectionResult) (sender_role : SenderRole)
    (processing_time_ms : Nat) : MonitorResponse :=
  let fused := calculate_final_risk pii_result toxicity_result
  let final_risk := fused.1
  let severity_score := fused.2
  let recommended_action := get_recommended_action final_risk sender_role
  let should_flag :=
    [RiskLevel.MEDIUM, RiskLevel.HIGH, RiskLevel.CRITICAL].contains final_risk
  { pii_detection := pii_result
    toxicity_detection := toxicity_result
    final_risk_level := final_risk
    severity_score := severity_score
    recommended_action := recommended_action
    should_flag := should_flag
    processing_time_ms := processing_time_ms }

/-- health_check of src/app/main.py (lines 112-120). The environment variable
OPENAI_API_KEY is modelled as an optional string; api_key_configured embeds the
Python truthiness bool(os.getenv(...)), which is false for both an unset
variable and an empty string. -/
def health_check (openai_api_key : Option String) : HealthResponse :=
  { status := "healthy"
    model := MODEL_NAME
    api_key_configured :=
      match openai_api_key with
      | none => false
      | some s => !(s = "") }

end App

namespace MainPy

/-- MAX_WORKERS constant of src/main.py (line 31). -/
def MAX_WORKERS : Nat := 2

/-- The risk_scores dictionary of calculate_final_risk in src/main.py (lines 274-280). -/
def risk_scores : RiskLevel → Nat
  | .SAFE => 0
  | .LOW => 25
  | .MEDIUM => 50
  | .HIGH => 75
  | .CRITICAL => 100

/-- calculate_final_risk of src/main.py (lines 258-298), the worker-pool entry
point's copy of the fusion function. -/
def calculate_final_risk (pii_result : PIIDetectionResult)
    (toxicity_result : ToxicityDetectionResult) : RiskLevel × Nat :=
  let pii_score := risk_scores pii_result.risk_level
  let toxicity_score := risk_scores toxicity_result.risk_level
  let final_score := max pii_score toxicity_score
  let final_risk :=
    if final_score ≥ 75 then RiskLevel.CRITICAL
    else if final_score ≥ 50 then RiskLevel.HIGH
    else if final_score ≥ 25 then RiskLevel.MEDIUM
    else if final_score > 0 then RiskLevel.LOW
    else RiskLevel.SAFE
  (final_risk, final_score)

/-- get_recommended_action of src/main.py (lines 301-342), the worker-pool entry
point's copy of the action policy. -/
def get_recommended_action (risk_level : RiskLevel) (sender_role : SenderRole) : String :=
  if risk_level = RiskLevel.CRITICAL then
    "IMMEDIATE ACTION REQUIRED: Delete message immediately, notify compliance team, suspend "
      ++ sender_role.value
      ++ " account pending investigation, initiate incident response protocol"
  else if risk_level = RiskLevel.HIGH then
    "URGENT: Flag for immediate compliance review, notify "
      ++ sender_role.value
      ++ " manager, require mandatory training, monitor future communications closely"
  else if risk_level = RiskLevel.MEDIUM then
    "WARNING: Log incident for audit trail, send automated warning to "
      ++ sender_role.value
      ++ ", escalate if pattern continues"
  else if risk_level = RiskLevel.LOW then
    "ADVISORY: Log for compliance records, no immediate action required, monitor for patterns"
  else
    "SAFE: No action required, message complies with policies"

end MainPy

/-! Claim-side vocabulary: the weight table and threshold map exactly as the
specification words them, used only to state claims about the fusion function,
and a substring predicate used to state the action-policy claims. -/

/-- The weight table as the specification states it: SAFE=0, LOW=25, MEDIUM=50,
HIGH=75, CRITICAL=100. Transcribed from the spec wording, for stating claims. -/
def specWeight : RiskLevel → Nat
  | .SAFE => 0
  | .LOW => 25
  | .MEDIUM => 50
  | .HIGH => 75
  | .CRITICAL => 100

/-- The reverse threshold map as the specification states it: a score of at least
75 gives CRITICAL, at least 50 gives HIGH, at least 25 gives MEDIUM, positive
gives LOW, else SAFE. Transcribed from the spec wording, for stating claims. -/
def specLevelOfScore (score : Nat) : RiskLevel :=
  if score ≥ 75 then RiskLevel.CRITICAL
  else if score ≥ 50 then RiskLevel.HIGH
  else if score ≥ 25 then RiskLevel.MEDIUM
  else if score > 0 then RiskLevel.LOW
  else RiskLevel.SAFE

/-- The string sub occurs verbatim inside s. -/
def strContains (s sub : String) : Prop := sub.data <:+: s.data

instance (s sub : String) : Decidable (strContains s sub) :=
  List.decidableInfix sub.data s.data

/-- calculate_final_risk inspects only the two risk_level fields: it equals the
threshold map applied to the maximum of the two table weights. Definitional
unfolding of the source translation, shared by the claim proofs. -/
theorem calc_final_risk_unfold (p : PIIDetectionResult) (t : ToxicityDetectionResult) :
    App.calculate_final_risk p t =
      (specLevelOfScore (max (App.risk_scores p.risk_level) (App.risk_scores t.risk_level)),
       max (App.risk_scores p.risk_level) (App.risk_scores t.risk_level)) := rfl

/-- The threshold map is monotone with respect to the declared order of risk
levels: a larger score never maps to a strictly lower level. -/
theorem specLevelOfScore_mono {s t : Nat} (h : s ≤ t) :
    (specLevelOfScore s).severityRank ≤ (specLevelOfScore t).severityRank := by
  unfold specLevelOfScore
  split_ifs <;> simp [RiskLevel.severityRank] <;> omega

set_option maxRecDepth 8000

/-- Claim C1: for every pair of RiskLevel inputs, calculate_final_risk looks up
each input's weight (SAFE=0, LOW=25, MEDIUM=50, HIGH=75, CRITICAL=100), returns
the maximum of the two weights as the severity score, and returns the RiskLevel
obtained by mapping that score back through the thresholds (at least 75 gives
CRITICAL, at least 50 gives HIGH, at least 25 gives MEDIUM, positive gives LOW,
otherwise SAFE). -/
theorem claim_C1_fusion_algorithm (p : PIIDetectionResult) (t : ToxicityDetectionResult) :
    App.calculate_final_risk p t =
      (specLevelOfScore (max (specWeight p.risk_level) (specWeight t.risk_level)),
       max (specWeight p.risk_level) (specWeight t.risk_level)) := by
  obtain ⟨_, _, lp, _⟩ := p
  obtain ⟨_, _, lt, _⟩ := t
  cases lp <;> cases lt <;> rfl

/-- Claim C2 evaluation: the weight-to-level round trip is not exact on the code.
At pii risk HIGH and toxicity risk MEDIUM the code returns (CRITICAL, 75), not
(HIGH, 75); at LOW and MEDIUM it returns (HIGH, 50), not (MEDIUM, 50); the SAFE
and CRITICAL examples of the claim do hold. -/
theorem claim_C2_round_trip_code_eval :
    App.calculate_final_risk ⟨false, [], RiskLevel.HIGH, ""⟩ ⟨false, [], RiskLevel.MEDIUM, ""⟩
      = (RiskLevel.CRITICAL, 75) ∧
    App.calculate_final_risk ⟨false, [], RiskLevel.LOW, ""⟩ ⟨false, [], RiskLevel.MEDIUM, ""⟩
      = (RiskLevel.HIGH, 50) ∧
    App.calculate_final_risk ⟨false, [], RiskLevel.SAFE, ""⟩ ⟨false, [], RiskLevel.SAFE, ""⟩
      = (RiskLevel.SAFE, 0) ∧
    App.calculate_final_risk ⟨false, [], RiskLevel.CRITICAL, ""⟩ ⟨false, [], RiskLevel.SAFE, ""⟩
      = (RiskLevel.CRITICAL, 100) :=
  ⟨rfl, rfl, rfl, rfl⟩

/-- Claim C3: for every pair of detector results, the response field should_flag
is true exactly when the fused RiskLevel is MEDIUM, HIGH or CRITICAL, and false
exactly when it is SAFE or LOW. -/
theorem claim_C3_should_flag_iff (p : PIIDetectionResult) (t : ToxicityDetectionResult)
    (role : SenderRole) (ms : Nat) :
    ((App.monitor_communication p t role ms).should_flag = true ↔
      ((App.calculate_final_risk p t).1 = RiskLevel.MEDIUM ∨
       (App.calculate_final_risk p t).1 = RiskLevel.HIGH ∨
       (App.calculate_final_risk p t).1 = RiskLevel.CRITICAL)) ∧
    ((App.monitor_communication p t role ms).should_flag = false ↔
      ((App.calculate_final_risk p t).1 = RiskLevel.SAFE ∨
       (App.calculate_final_risk p t).1 = RiskLevel.LOW)) := by
  have hsf : (App.monitor_communication p t role ms).should_flag
      = [RiskLevel.MEDIUM, RiskLevel.HIGH, RiskLevel.CRITICAL].contains
          (App.calculate_final_risk p t).1 := rfl
  rw [hsf]
  generalize (App.calculate_final_risk p t).1 = L
  cases L <;> decide

/-- Claim C4: swapping the PII and toxicity risk levels yields the same fused
result, the returned score is the maximum of the two input weights, and the
returned RiskLevel is monotonically non-decreasing in the returned score. -/
theorem claim_C4_fuse_commutative (p p' : PIIDetectionResult) (t t' : ToxicityDetectionResult)
    (h1 : p'.risk_level = t.risk_level) (h2 : t'.risk_level = p.risk_level) :
    App.calculate_final_risk p' t' = App.calculate_final_risk p t ∧
    (App.calculate_final_risk p t).2
      = max (App.risk_scores p.risk_level) (App.risk_scores t.risk_level) ∧
    ∀ q q' : PIIDetectionResult, ∀ u u' : ToxicityDetectionResult,
      (App.calculate_final_risk q u).2 ≤ (App.calculate_final_risk q' u').2 →
      ((App.calculate_final_risk q u).1).severityRank
        ≤ ((App.calculate_final_risk q' u').1).severityRank := by
  refine ⟨?_, rfl, ?_⟩
  · rw [calc_final_risk_unfold p' t', calc_final_risk_unfold p t, h1, h2,
      Nat.max_comm (App.risk_scores t.risk_level) (App.risk_scores p.risk_level)]
  · intro q q' u u' hle
    exact specLevelOfScore_mono hle

/-- Witness for claim C4, at pii HIGH and toxicity MEDIUM swapped to pii MEDIUM
and toxicity HIGH. -/
theorem claim_C4_fuse_commutative_witness :
    (⟨false, [], RiskLevel.MEDIUM, ""⟩ : PIIDetectionResult).risk_level
      = (⟨false, [], RiskLevel.MEDIUM, ""⟩ : ToxicityDetectionResult).risk_level ∧
    (⟨false, [], RiskLevel.HIGH, ""⟩ : ToxicityDetectionResult).risk_level
      = (⟨false, [], RiskLevel.HIGH, ""⟩ : PIIDetectionResult).risk_level ∧
    App.calculate_final_risk ⟨false, [], RiskLevel.MEDIUM, ""⟩ ⟨false, [], RiskLevel.HIGH, ""⟩
      = App.calculate_final_risk ⟨false, [], RiskLevel.HIGH, ""⟩ ⟨false, [], RiskLevel.MEDIUM, ""⟩ :=
  ⟨rfl, rfl,
    (claim_C4_fuse_commutative ⟨false, [], RiskLevel.HIGH, ""⟩ ⟨false, [], RiskLevel.MEDIUM, ""⟩
      ⟨false, [], RiskLevel.MEDIUM, ""⟩ ⟨false, [], RiskLevel.HIGH, ""⟩ rfl rfl).1⟩

/-- Claim C5: when the external classification call raises, detect_pii returns
has_pii false, an empty pii_types list, risk SAFE and an explanation describing
the failure, and detect_toxicity analogously; the failure is absorbed, never
propagated. -/
theorem claim_C5_fail_open (e : String) :
    App.detect_pii (Except.error e)
      = { has_pii := false, pii_types := [], risk_level := RiskLevel.SAFE,
          explanation := "Error during PII detection: " ++ e } ∧
    App.detect_toxicity (Except.error e)
      = { is_toxic := false, toxicity_types := [], risk_level := RiskLevel.SAFE,
          explanation := "Error during toxicity detection " ++ e } :=
  ⟨rfl, rfl⟩

/-- Claim C6: for every sender role, the recommended action for CRITICAL, HIGH
and MEDIUM contains the role display label verbatim, and the SAFE action is one
fixed string identical across all roles. -/
theorem claim_C6_action_role_label :
    ∀ role : SenderRole,
      strContains (App.get_recommended_action RiskLevel.CRITICAL role) role.value ∧
      strContains (App.get_recommended_action RiskLevel.HIGH role) role.value ∧
      strContains (App.get_recommended_action RiskLevel.MEDIUM role) role.value ∧
      ∀ role' : SenderRole,
        App.get_recommended_action RiskLevel.SAFE role
          = App.get_recommended_action RiskLevel.SAFE role' := by
  decide

/-- Counterexample to claim C7: the LOW action entry does not contain the sender
role display label; at risk LOW and role HR the returned string has no occurrence
of the label. -/
theorem claim_C7_counterexample :
    ¬ strContains (App.get_recommended_action RiskLevel.LOW SenderRole.HR)
        (SenderRole.value SenderRole.HR) := by
  decide

/-- Claim C7 as amended: the CRITICAL, HIGH and MEDIUM action entries interpolate
the role display label, while the LOW and SAFE entries are fixed strings
identical across all roles that do not contain the role display label. -/
theorem claim_C7_role_label_amended :
    ∀ role : SenderRole,
      strContains (App.get_recommended_action RiskLevel.CRITICAL role) role.value ∧
      strContains (App.get_recommended_action RiskLevel.HIGH role) role.value ∧
      strContains (App.get_recommended_action RiskLevel.MEDIUM role) role.value ∧
      ¬ strContains (App.get_recommended_action RiskLevel.LOW role) role.value ∧
      ¬ strContains (App.get_recommended_action RiskLevel.SAFE role) role.value ∧
      ∀ role' : SenderRole,
        App.get_recommended_action RiskLevel.LOW role
          = App.get_recommended_action RiskLevel.LOW role' ∧
        App.get_recommended_action RiskLevel.SAFE role
          = App.get_recommended_action RiskLevel.SAFE role' := by
  decide

/-- Claim C8: the two duplicated entry points implement identical policy logic;
the fusion functions of src/main.py and src/app/services.py agree on every input
pair, and likewise the two copies of the action policy. -/
theorem claim_C8_duplicate_entry_points_equal :
    (∀ (p : PIIDetectionResult) (t : ToxicityDetectionResult),
        App.calculate_final_risk p t = MainPy.calculate_final_risk p t) ∧
    (∀ (l : RiskLevel) (r : SenderRole),
        App.get_recommended_action l r = MainPy.get_recommended_action l r) :=
  ⟨fun _ _ => rfl, fun _ _ => rfl⟩

/-- Counterexample to claim C9: with the credential variable set to the empty
string the variable is set, yet api_key_configured is false, because the code
tests Python truthiness of the value rather than presence. -/
theorem claim_C9_counterexample :
    (App.health_check (some "")).api_key_configured = false ∧
    (some "" : Option String).isSome = true :=
  ⟨rfl, rfl⟩

/-- Claim C9 as amended: the health payload always carries status healthy and
the model identifier, api_key_configured is true exactly when the credential
variable is set to a non-empty string, and it is false when the variable is
unset. -/
theorem claim_C9_health_amended (env : Option String) :
    (App.health_check env).status = "healthy" ∧
    (App.health_check env).model = MODEL_NAME ∧
    ((App.health_check env).api_key_configured = true ↔ ∃ s, env = some s ∧ s ≠ "") ∧
    (App.health_check none).api_key_configured = false := by
  refine ⟨rfl, rfl, ?_, rfl⟩
  cases env with
  | none => simp [App.health_check]
  | some s =>
    by_cases hs : s = ""
    · subst hs
      simp [App.health_check]
    · simp [App.health_check, hs]

/-- Claim C10: the severity score returned by calculate_final_risk always lies
in the set of the five canonical weights, and the fused level is never LOW: the
branch mapping a score strictly between 0 and 25 to LOW is unreachable. -/
theorem claim_C10_score_range_no_low (p : PIIDetectionResult) (t : ToxicityDetectionResult) :
    (App.calculate_final_risk p t).2 ∈ [0, 25, 50, 75, 100] ∧
    (App.calculate_final_risk p t).1 ≠ RiskLevel.LOW := by
  obtain ⟨_, _, lp, _⟩ := p
  obtain ⟨_, _, lt, _⟩ := t
  show max (App.risk_scores lp) (App.risk_scores lt) ∈ [0, 25, 50, 75, 100] ∧
    specLevelOfScore (max (App.risk_scores lp) (App.risk_scores lt)) ≠ RiskLevel.LOW
  cases lp <;> cases lt <;> decide

end ComplianceMonitor
